import Mathlib

set_option linter.unusedVariables false

/-!
# Verification of the grid-bot trading core

Shallow embedding, over `ℚ`, of the pure computational core of the
grid-trading system: trading math utilities (`src/grid-bot/src/utils/math.ts`),
the risk engine (`src/grid-bot/src/agents/optimizer/risk-engine.ts`),
the indicator engine consensus (`src/indicators/engine.ts`),
the RSI indicator (`src/indicators/built-in/rsi.ts`),
the backtester (`src/grid-bot/src/agents/optimizer/backtester.ts`),
and the paper-trade simulator (`src/agents/executor/paper-trade.ts`).

JavaScript numbers are modelled as rationals; `Math.round x` is modelled as
`⌊x + 1/2⌋` (round half toward positive infinity, as in JS).  Runtime effects
(`Math.random()`, `Date.now()`) are passed as explicit arguments.
-/

namespace GridBot

/-- JS `Math.round`: round half toward +∞. -/
def jsRound (x : ℚ) : ℤ := ⌊x + 1/2⌋

/-- `roundTo` from `utils/math.ts`: `Math.round(value * 10**decimals) / 10**decimals`. -/
def roundTo (value : ℚ) (decimals : ℕ) : ℚ :=
  (jsRound (value * 10 ^ decimals) : ℚ) / 10 ^ decimals

/-- `bpsToDecimal` from `utils/math.ts`. -/
def bpsToDecimal (bps : ℚ) : ℚ := bps / 10000

/-- `roundTo x d` is at most `x + (1/2)·10^-d`. -/
theorem roundTo_le (x : ℚ) (d : ℕ) : roundTo x d ≤ x + 1 / 2 / 10 ^ d := by
  unfold roundTo jsRound
  have h : ((⌊x * 10 ^ d + 1/2⌋ : ℤ) : ℚ) ≤ x * 10 ^ d + 1/2 := Int.floor_le _
  have hp : (0:ℚ) < 10 ^ d := by positivity
  rw [div_le_iff₀ hp]
  calc ((⌊x * 10 ^ d + 1/2⌋ : ℤ) : ℚ) ≤ x * 10 ^ d + 1/2 := h
    _ = (x + 1/2 / 10 ^ d) * 10 ^ d := by field_simp; ring

/-- `roundTo x d` is at least `x - (1/2)·10^-d`. -/
theorem le_roundTo (x : ℚ) (d : ℕ) : x - 1 / 2 / 10 ^ d ≤ roundTo x d := by
  unfold roundTo jsRound
  have h : x * 10 ^ d + 1/2 - 1 ≤ ((⌊x * 10 ^ d + 1/2⌋ : ℤ) : ℚ) :=
    le_of_lt (Int.sub_one_lt_floor _)
  have hp : (0:ℚ) < 10 ^ d := by positivity
  rw [le_div_iff₀ hp]
  calc (x - 1/2 / 10 ^ d) * 10 ^ d = x * 10 ^ d + 1/2 - 1 := by field_simp; ring
    _ ≤ _ := h

-- ─── Risk engine (`risk-engine.ts`) ─────────────────────────

/-- Order side (`buy | sell`). -/
inductive Side
  | buy
  | sell
deriving DecidableEq, Repr

/-- `RiskProfile` from `config/risk-profiles.ts` (fields used by the risk engine). -/
structure RiskProfile where
  name : String
  maxDrawdownPct : ℚ
  maxPositionPct : ℚ
  maxOpenPositions : ℕ
  dailyLossLimitPct : ℚ
  gridSpacingMinPct : ℚ
  maxSlippageBps : ℚ
deriving DecidableEq, Repr

/-- `ProposedOrder` from `risk-engine.ts`. -/
structure ProposedOrder where
  action : Side
  price : ℚ
  quantity : ℚ
  pair : String
deriving DecidableEq, Repr

/-- `PortfolioState` from `risk-engine.ts`. -/
structure PortfolioState where
  totalCapital : ℚ
  currentDrawdownPct : ℚ
  dailyPnlPct : ℚ
  openPositionCount : ℕ
  openPositionValue : ℚ
deriving DecidableEq, Repr

/-- `RiskDecision` from `risk-engine.ts`. -/
structure RiskDecision where
  allowed : Bool
  reason : String
  adjustedQuantity : Option ℚ := none
deriving DecidableEq, Repr

/-- Kill-switch actions (`none | pause | exit_all | shutdown`). -/
inductive KillAction
  | none
  | pause
  | exitAll
  | shutdown
deriving DecidableEq, Repr

/-- `KillSwitchResult` from `risk-engine.ts` (the human-readable reason string
is built from numbers at runtime; we keep a fixed tag per branch). -/
structure KillSwitchResult where
  triggered : Bool
  action : KillAction
  reason : String
deriving DecidableEq, Repr

/-- `RiskEngine.checkTradeAllowed` from `risk-engine.ts` lines 56–122. -/
def checkTradeAllowed (profile : RiskProfile) (order : ProposedOrder)
    (state : PortfolioState) : RiskDecision :=
  -- 1. Kill switch: max drawdown exceeded
  if state.currentDrawdownPct ≥ profile.maxDrawdownPct then
    { allowed := false, reason := "Kill switch: max drawdown exceeded" }
  -- 2. Daily loss limit
  else if state.dailyPnlPct ≤ -profile.dailyLossLimitPct then
    { allowed := false, reason := "Daily loss limit hit" }
  -- 3. Max open positions
  else if state.openPositionCount ≥ profile.maxOpenPositions then
    { allowed := false, reason := "Max open positions reached" }
  -- 4. Position size limit
  else
    let orderValue := order.price * order.quantity
    let maxPositionValue := state.totalCapital * (profile.maxPositionPct / 100)
    if orderValue > maxPositionValue then
      { allowed := true,
        reason := "Position size adjusted to fit max position limit",
        adjustedQuantity := some (maxPositionValue / order.price) }
    else
      { allowed := true, reason := "All risk checks passed" }

/-- `RiskEngine.checkKillSwitch` from `risk-engine.ts` lines 127–174. -/
def checkKillSwitch (profile : RiskProfile) (state : PortfolioState) :
    KillSwitchResult :=
  -- Critical: max drawdown reached → shutdown
  if state.currentDrawdownPct ≥ profile.maxDrawdownPct then
    { triggered := true, action := .shutdown, reason := "max drawdown" }
  -- Warning: approaching max drawdown → pause
  else if state.currentDrawdownPct ≥ profile.maxDrawdownPct * (8/10) then
    { triggered := true, action := .pause, reason := "drawdown warning" }
  -- Critical: daily loss limit exceeded → exit all
  else if state.dailyPnlPct ≤ -profile.dailyLossLimitPct then
    { triggered := true, action := .exitAll, reason := "daily loss limit" }
  else
    { triggered := false, action := .none, reason := "within limits" }

-- ─── Grid math (`utils/math.ts`) ────────────────────────────

/-- `GridLevel` from `utils/math.ts`. -/
structure GridLevel where
  index : ℤ
  price : ℚ
  side : Side
  quantity : ℚ
  filled : Bool
deriving DecidableEq, Repr

/-- Price order on grid levels: the ascending order produced by
`grid.sort((a, b) => a.price - b.price)`. -/
def priceLE (a b : GridLevel) : Prop := a.price ≤ b.price

instance : DecidableRel priceLE := fun a b => inferInstanceAs (Decidable (a.price ≤ b.price))

/-- `calculateGridLevels` from `utils/math.ts` lines 26–64: `levels` buy levels
below center, `levels` sell levels above, prices rounded to `quoteDecimals`
decimals, quantities (capital-per-level over rounded price) rounded to 9
decimals, result sorted ascending by price. -/
def calculateGridLevels (centerPrice spacingPct : ℚ) (levels : ℕ)
    (totalCapital : ℚ) (quoteDecimals : ℕ := 6) : List GridLevel :=
  let spacingMultiplier := spacingPct / 100
  let capitalPerLevel := totalCapital / levels
  -- Buy levels (below center price), i = 1..levels
  let buys := (List.range levels).map (fun j =>
    let i : ℕ := j + 1
    let price := roundTo (centerPrice * (1 - spacingMultiplier * i)) quoteDecimals
    { index := -(i : ℤ), price := price, side := Side.buy,
      quantity := roundTo (capitalPerLevel / price) 9, filled := false })
  -- Sell levels (above center price), i = 1..levels
  let sells := (List.range levels).map (fun j =>
    let i : ℕ := j + 1
    let price := roundTo (centerPrice * (1 + spacingMultiplier * i)) quoteDecimals
    { index := (i : ℤ), price := price, side := Side.sell,
      quantity := roundTo (capitalPerLevel / price) 9, filled := false })
  (buys ++ sells).insertionSort priceLE

/-- Result of `calculatePnL` from `utils/math.ts`. -/
structure PnLResult where
  pnl : ℚ
  pnlPct : ℚ
deriving DecidableEq, Repr

/-- `calculatePnL` from `utils/math.ts` lines 93–106. -/
def calculatePnL (side : Side) (entryPrice exitPrice quantity fees : ℚ) :
    PnLResult :=
  let raw := match side with
    | .buy => (exitPrice - entryPrice) * quantity
    | .sell => (entryPrice - exitPrice) * quantity
  let pnl := raw - fees
  let pnlPct := pnl / (entryPrice * quantity) * 100
  { pnl := roundTo pnl 6, pnlPct := roundTo pnlPct 2 }

-- ─── Indicator engine (`indicators/engine.ts`) ──────────────

/-- `IndicatorOutput.signal` values. -/
inductive Signal
  | buy
  | sell
  | neutral
deriving DecidableEq, Repr

/-- Consensus signal values. -/
inductive ConsensusSignal
  | strongBuy
  | buy
  | neutral
  | sell
  | strongSell
deriving DecidableEq, Repr

/-- `IndicatorOutput` from `indicators/types.ts`: normalized signal,
confidence in `[0,1]`, named diagnostic values. -/
structure IndicatorOutput where
  signal : Signal
  confidence : ℚ
  values : List (String × ℚ) := []
deriving DecidableEq, Repr

/-- The aggregate consensus part of `EngineResult` from `indicators/engine.ts`. -/
structure Consensus where
  signal : ConsensusSignal
  confidence : ℚ
  buyCount : ℕ
  sellCount : ℕ
  neutralCount : ℕ
deriving DecidableEq, Repr

/-- Accumulator of the `computeAll` loop: vote counts and summed confidence. -/
structure VoteTally where
  buyCount : ℕ
  sellCount : ℕ
  neutralCount : ℕ
  totalConfidence : ℚ
deriving DecidableEq, Repr

/-- One iteration of the `computeAll` loop (engine.ts lines 127–138): a `none`
entry is an indicator that was skipped (`if (!result) continue`), otherwise the
vote is counted (`else neutralCount++` catches everything not buy/sell) and
the confidence added. -/
def tallyStep (acc : VoteTally) (r : Option IndicatorOutput) : VoteTally :=
  match r with
  | none => acc
  | some result =>
    let acc1 := match result.signal with
      | .buy => { acc with buyCount := acc.buyCount + 1 }
      | .sell => { acc with sellCount := acc.sellCount + 1 }
      | .neutral => { acc with neutralCount := acc.neutralCount + 1 }
    { acc1 with totalConfidence := acc1.totalConfidence + result.confidence }

/-- The tally over all per-indicator compute results, in engine order. -/
def computeAllTally (results : List (Option IndicatorOutput)) : VoteTally :=
  results.foldl tallyStep ⟨0, 0, 0, 0⟩

/-- The consensus aggregation of `IndicatorEngine.computeAll` (engine.ts lines
115–161), shallowly embedded over the list of per-indicator compute results
(the registry dispatch and per-indicator guard live in `engineComputeRSI`-style
wrappers; a `none` is a skipped indicator). -/
def computeAllConsensus (results : List (Option IndicatorOutput)) : Consensus :=
  let t := computeAllTally results
  let total := t.buyCount + t.sellCount + t.neutralCount
  let avgConfidence := if total > 0 then t.totalConfidence / total else 0
  let signal :=
    if t.buyCount > t.sellCount ∧ t.buyCount > t.neutralCount then
      (if avgConfidence > 3/4 then ConsensusSignal.strongBuy else ConsensusSignal.buy)
    else if t.sellCount > t.buyCount ∧ t.sellCount > t.neutralCount then
      (if avgConfidence > 3/4 then ConsensusSignal.strongSell else ConsensusSignal.sell)
    else ConsensusSignal.neutral
  { signal := signal,
    confidence := roundTo avgConfidence 2,
    buyCount := t.buyCount,
    sellCount := t.sellCount,
    neutralCount := t.neutralCount }

-- Spec-level counting functions (used to state consensus theorems).

/-- The outputs of the indicators that actually voted (skips `none`). -/
def voteOutputs (results : List (Option IndicatorOutput)) : List IndicatorOutput :=
  results.filterMap id

/-- Number of buy votes. -/
def buyVotes (results : List (Option IndicatorOutput)) : ℕ :=
  (voteOutputs results).countP (fun o => o.signal == Signal.buy)

/-- Number of sell votes. -/
def sellVotes (results : List (Option IndicatorOutput)) : ℕ :=
  (voteOutputs results).countP (fun o => o.signal == Signal.sell)

/-- Number of neutral votes. -/
def neutralVotes (results : List (Option IndicatorOutput)) : ℕ :=
  (voteOutputs results).countP (fun o => o.signal == Signal.neutral)

/-- Average confidence across all voting indicators (0 when none voted). -/
def overallAvgConfidence (results : List (Option IndicatorOutput)) : ℚ :=
  if (voteOutputs results).length > 0 then
    ((voteOutputs results).map (·.confidence)).sum / (voteOutputs results).length
  else 0

/-- The reading of the strength rule used by the claim (spec-side definition, for
comparison with the code only): the average confidence of the indicators that
voted for the *winning* buy category. -/
def buyCategoryAvgConfidence (results : List (Option IndicatorOutput)) : ℚ :=
  let buys := (voteOutputs results).filter (fun o => o.signal == Signal.buy)
  if buys.length > 0 then (buys.map (·.confidence)).sum / buys.length else 0

-- ─── RSI indicator (`indicators/built-in/rsi.ts`) ───────────

/-- Candle (`OHLCV` from `indicators/types.ts`). -/
structure OHLCV where
  timestamp : ℤ
  open_ : ℚ
  high : ℚ
  low : ℚ
  close : ℚ
  volume : ℚ
deriving DecidableEq, Repr

/-- RSI parameters (`defaultParams` keys of `RSIIndicator.config`). -/
structure RSIParams where
  period : ℕ
  overbought : ℚ
  oversold : ℚ
deriving DecidableEq, Repr

/-- `RSIIndicator.config.defaultParams`. -/
def rsiDefaultParams : RSIParams := { period := 14, overbought := 70, oversold := 30 }

/-- `RSIIndicator.config.minCandles`. -/
def rsiMinCandles : ℕ := 15

/-- `calculateRSI` from `rsi.ts` lines 45–74: simple initial average over the
first `period` changes, then Wilder smoothing over the rest. -/
def calculateRSI (closes : List ℚ) (period : ℕ) : ℚ :=
  if closes.length < period + 1 then 50
  else
    let changes := (closes.zip closes.tail).map (fun p => p.2 - p.1)
    let initial := changes.take period
    let gainSum := (initial.map (fun c => if c > 0 then c else 0)).sum
    let lossSum := (initial.map (fun c => if c > 0 then 0 else |c|)).sum
    let avgGain := gainSum / period
    let avgLoss := lossSum / period
    let final := (changes.drop period).foldl
      (fun (a : ℚ × ℚ) change =>
        let gain := if change > 0 then change else 0
        let loss := if change < 0 then |change| else 0
        (((a.1 * ((period : ℚ) - 1) + gain) / period),
         ((a.2 * ((period : ℚ) - 1) + loss) / period)))
      (avgGain, avgLoss)
    if final.2 = 0 then 100
    else 100 - 100 / (1 + final.1 / final.2)

/-- `RSIIndicator.compute` from `rsi.ts` lines 20–42. -/
def rsiCompute (candles : List OHLCV) (params : RSIParams) : IndicatorOutput :=
  let closes := candles.map (·.close)
  let rsi := calculateRSI closes params.period
  let sc : Signal × ℚ :=
    if rsi ≤ params.oversold then
      (Signal.buy, 6/10 + (params.oversold - rsi) / params.oversold * (4/10))
    else if rsi ≥ params.overbought then
      (Signal.sell, 6/10 + (rsi - params.overbought) / (100 - params.overbought) * (4/10))
    else (Signal.neutral, 1/2)
  { signal := sc.1,
    confidence := min sc.2 1,
    values := [("rsi", roundTo rsi 2)] }

/-- `IndicatorEngine.compute` (engine.ts lines 87–110) instantiated at the RSI
indicator: skip (return `null`) when fewer candles than `minCandles`, else run
the `compute` of the indicator with its default parameters. -/
def engineComputeRSI (candles : List OHLCV) : Option IndicatorOutput :=
  if candles.length < rsiMinCandles then none
  else some (rsiCompute candles rsiDefaultParams)

-- ─── Paper trade simulator (`agents/executor/paper-trade.ts`) ───

/-- Order strategy tag. -/
inductive Strategy
  | grid
  | breakout
  | momentum
deriving DecidableEq, Repr

/-- `OrderMessage` from `bus/redis.ts` (fields used by the executor). -/
structure OrderMessage where
  timestamp : ℤ
  orderId : String
  pair : String
  action : Side
  price : ℚ
  quantity : ℚ
  slippageBps : ℚ
  strategy : Strategy
  gridLevel : Option ℤ := none
deriving DecidableEq, Repr

/-- `PaperFill` from `paper-trade.ts`. -/
structure PaperFill where
  orderId : String
  fillPrice : ℚ
  fillQuantity : ℚ
  fee : ℚ
  slippageBps : ℚ
  timestamp : ℤ
deriving DecidableEq, Repr

/-- `FEE_BPS` from `paper-trade.ts` (0.25% Jupiter-like maker/taker fee). -/
def FEE_BPS : ℚ := 25

/-- `simulateFill` from `paper-trade.ts` lines 166–193.  `rand` is the value
drawn from `Math.random()` and `now` the `Date.now()` timestamp, passed
explicitly. -/
def simulateFill (order : OrderMessage) (rand : ℚ) (now : ℤ) : PaperFill :=
  let maxSlippageDec := bpsToDecimal order.slippageBps
  -- Random between -half and +half of max slippage
  let slippageDec := (rand - 1/2) * maxSlippageDec
  -- Buys slip UP, sells slip DOWN (unfavorable direction)
  let direction : ℚ := if order.action = Side.buy then 1 else -1
  let fillPrice := roundTo (order.price * (1 + |slippageDec| * direction)) 6
  let notional := fillPrice * order.quantity
  let fee := roundTo (notional * bpsToDecimal FEE_BPS) 6
  let actualSlippageBps := roundTo (|(fillPrice - order.price) / order.price * 10000|) 1
  { orderId := order.orderId,
    fillPrice := fillPrice,
    fillQuantity := order.quantity,
    fee := fee,
    slippageBps := actualSlippageBps,
    timestamp := now }

/-- `OpenPosition` from `paper-trade.ts`. -/
structure OpenPosition where
  orderId : String
  side : Side
  price : ℚ
  quantity : ℚ
  fee : ℚ
  timestamp : ℤ
  gridLevel : Option ℤ
  strategy : Strategy
deriving DecidableEq, Repr

/-- `ClosedTrade` from `paper-trade.ts`. -/
structure ClosedTrade where
  entryOrderId : String
  exitOrderId : String
  side : Side
  entryPrice : ℚ
  exitPrice : ℚ
  quantity : ℚ
  pnl : ℚ
  pnlPct : ℚ
  fees : ℚ
  durationMs : ℤ
  strategy : Strategy
deriving DecidableEq, Repr

/-- The mutable state of a `PaperPortfolio` instance. -/
structure PaperPortfolio where
  initialCapital : ℚ
  currentCapital : ℚ
  peakCapital : ℚ
  openPositions : List OpenPosition
  closedTrades : List ClosedTrade
  dailyPnl : ℚ
  dailyStartCapital : ℚ
  tradeCount : ℕ
  winCount : ℕ
deriving DecidableEq, Repr

/-- The `PaperPortfolio` constructor. -/
def mkPortfolio (initialCapital : ℚ) : PaperPortfolio :=
  { initialCapital := initialCapital,
    currentCapital := initialCapital,
    peakCapital := initialCapital,
    openPositions := [],
    closedTrades := [],
    dailyPnl := 0,
    dailyStartCapital := initialCapital,
    tradeCount := 0,
    winCount := 0 }

/-- `PaperPortfolio.openPosition` from `paper-trade.ts` lines 237–254. -/
def openPosition (p : PaperPortfolio) (order : OrderMessage) (fill : PaperFill) :
    PaperPortfolio :=
  { p with openPositions := p.openPositions ++
      [{ orderId := fill.orderId,
         side := order.action,
         price := fill.fillPrice,
         quantity := fill.fillQuantity,
         fee := fill.fee,
         timestamp := fill.timestamp,
         gridLevel := order.gridLevel,
         strategy := order.strategy }] }

/-- `PaperPortfolio.closePosition` from `paper-trade.ts` lines 256–309
(`none` when `entryIdx` is out of range — the source only calls it with the
index found by `findIndex`). -/
def closePosition (p : PaperPortfolio) (entryIdx : ℕ) (exitFill : PaperFill) :
    Option (ClosedTrade × PaperPortfolio) :=
  match p.openPositions.get? entryIdx with
  | none => none
  | some entry =>
    let qty := min entry.quantity exitFill.fillQuantity
    let totalFees := entry.fee + exitFill.fee
    let r := calculatePnL entry.side entry.price exitFill.fillPrice qty totalFees
    let cap := p.currentCapital + r.pnl
    let trade : ClosedTrade :=
      { entryOrderId := entry.orderId,
        exitOrderId := exitFill.orderId,
        side := entry.side,
        entryPrice := entry.price,
        exitPrice := exitFill.fillPrice,
        quantity := qty,
        pnl := roundTo r.pnl 4,
        pnlPct := roundTo r.pnlPct 2,
        fees := roundTo totalFees 4,
        durationMs := exitFill.timestamp - entry.timestamp,
        strategy := entry.strategy }
    some (trade,
      { p with
          currentCapital := cap,
          dailyPnl := p.dailyPnl + r.pnl,
          peakCapital := if cap > p.peakCapital then cap else p.peakCapital,
          tradeCount := p.tradeCount + 1,
          winCount := if r.pnl > 0 then p.winCount + 1 else p.winCount,
          openPositions := p.openPositions.eraseIdx entryIdx })

/-- `PaperPortfolio.processExecution` from `paper-trade.ts` lines 222–235:
close the first opposite-side open position (FIFO), else open a new one. -/
def processExecution (p : PaperPortfolio) (order : OrderMessage)
    (fill : PaperFill) : Option ClosedTrade × PaperPortfolio :=
  match p.openPositions.findIdx? (fun pos => pos.side != order.action) with
  | some idx =>
    match closePosition p idx fill with
    | some (t, p1) => (some t, p1)
    | none => (none, p)
  | none => (none, openPosition p order fill)

-- ─── Backtester (`agents/optimizer/backtester.ts`) ──────────

/-- `GridConfig` from `config/default.ts` (fields used by the backtester). -/
structure GridConfig where
  pair : String
  gridLevels : ℕ
  gridSpacingPct : ℚ
  capitalUsd : ℚ
  breakoutOverlay : Bool := false
deriving DecidableEq, Repr

/-- An entry of `BacktestResult.gridFills`. -/
structure GridFill where
  level : ℤ
  side : Side
  price : ℚ
  timestamp : ℤ
deriving DecidableEq, Repr

/-- A resting buy recorded in the `buyOrders` map of the backtester. -/
structure BuyOrder where
  price : ℚ
  quantity : ℚ
  timestamp : ℤ
deriving DecidableEq, Repr

/-- An entry of the `completedTrades` list of the backtester. -/
structure CompletedTrade where
  buyPrice : ℚ
  sellPrice : ℚ
  quantity : ℚ
deriving DecidableEq, Repr

/-- `BacktestResult` from `backtester.ts`. -/
structure BacktestResult where
  totalTrades : ℕ
  winningTrades : ℕ
  losingTrades : ℕ
  winRate : ℚ
  totalPnl : ℚ
  totalPnlPct : ℚ
  maxDrawdown : ℚ
  sharpeRatio : ℚ
  gridFills : List GridFill
deriving DecidableEq, Repr

/-- JS `Map.set`: replace the value under an existing key, else append. -/
def mapSet (m : List (ℤ × BuyOrder)) (k : ℤ) (v : BuyOrder) :
    List (ℤ × BuyOrder) :=
  if m.any (fun p => p.1 == k) then
    m.map (fun p => if p.1 == k then (k, v) else p)
  else m ++ [(k, v)]

/-- JS `Map.get`. -/
def mapGet (m : List (ℤ × BuyOrder)) (k : ℤ) : Option BuyOrder :=
  (m.find? (fun p => p.1 == k)).map (·.2)

/-- JS `Map.delete`. -/
def mapDelete (m : List (ℤ × BuyOrder)) (k : ℤ) : List (ℤ × BuyOrder) :=
  m.filter (fun p => p.1 != k)

/-- State threaded through the inner per-level loop of the backtester. -/
structure BTLoopState where
  buyOrders : List (ℤ × BuyOrder)
  gridFills : List GridFill
  completedTrades : List CompletedTrade
  equity : ℚ
deriving Repr

/-- One iteration of the per-level loop of `runBacktest`
(backtester.ts lines 76–137). -/
def stepLevel (candle : OHLCV) (s : BTLoopState) (level : GridLevel) :
    BTLoopState × GridLevel :=
  if level.filled then (s, level)
  else
    match level.side with
    | .buy =>
      -- Buy level: fill if price went at or below level price
      if candle.low ≤ level.price then
        ({ s with
            buyOrders := mapSet s.buyOrders level.index
              { price := level.price, quantity := level.quantity,
                timestamp := candle.timestamp },
            gridFills := s.gridFills ++
              [{ level := level.index, side := Side.buy, price := level.price,
                 timestamp := candle.timestamp }] },
         { level with filled := true })
      else (s, level)
    | .sell =>
      -- Sell level: fill if price went at or above level price
      if candle.high ≥ level.price then
        -- Find matching buy order: negative keys sorted descending, first
        -- element = greatest (closest to 0)
        let buyKeys := (s.buyOrders.map Prod.fst).filter (fun idx => idx < 0)
        let s1 : BTLoopState := match buyKeys.max? with
          | some matchingBuyLevel =>
            match mapGet s.buyOrders matchingBuyLevel with
            | some buyOrder =>
              let r := calculatePnL Side.buy buyOrder.price level.price
                buyOrder.quantity 0
              { s with
                  completedTrades := s.completedTrades ++
                    [{ buyPrice := buyOrder.price, sellPrice := level.price,
                       quantity := buyOrder.quantity }],
                  equity := s.equity + r.pnl,
                  buyOrders := mapDelete s.buyOrders matchingBuyLevel }
            | none => s
          | none => s
        ({ s1 with gridFills := s1.gridFills ++
            [{ level := level.index, side := Side.sell, price := level.price,
               timestamp := candle.timestamp }] },
         { level with filled := true })
      else (s, level)

/-- The `for (const level of grid)` loop: thread the state left-to-right,
collecting the updated `filled` flags. -/
def stepCandleGrid (candle : OHLCV) :
    BTLoopState → List GridLevel → BTLoopState × List GridLevel
  | s, [] => (s, [])
  | s, l :: ls =>
    let r1 := stepLevel candle s l
    let r2 := stepCandleGrid candle r1.1 ls
    (r2.1, r1.2 :: r2.2)

/-- Full per-candle backtester state. -/
structure BTState where
  grid : List GridLevel
  core : BTLoopState
  peakEquity : ℚ
  maxDrawdown : ℚ
  dailyReturns : List ℚ
deriving Repr

/-- The body of the candle loop of `runBacktest` (backtester.ts lines 72–154):
grid fills, drawdown tracking, and the per-candle return series. -/
def processCandle (capitalUsd : ℚ) (i : ℕ) (st : BTState) (candle : OHLCV) :
    BTState :=
  let r := stepCandleGrid candle st.core st.grid
  let core1 := r.1
  -- Track drawdown
  let peak := if core1.equity > st.peakEquity then core1.equity else st.peakEquity
  let currentDrawdown := (peak - core1.equity) / peak * 100
  let maxDD := if currentDrawdown > st.maxDrawdown then currentDrawdown
    else st.maxDrawdown
  let st1 := { st with
    grid := r.2, core := core1, peakEquity := peak, maxDrawdown := maxDD }
  -- Track daily returns (simplified: per candle)
  if i > 0 then
    let prevEquity := if i = 1 then capitalUsd else core1.equity
    let returnPct := (core1.equity - prevEquity) / prevEquity * 100
    { st1 with dailyReturns := st1.dailyReturns ++ [returnPct] }
  else st1

/-- The candle loop, with explicit running index. -/
def btLoop (capitalUsd : ℚ) : List OHLCV → ℕ → BTState → BTState
  | [], _, st => st
  | c :: rest, i, st => btLoop capitalUsd rest (i + 1) (processCandle capitalUsd i st c)

/-- Initial backtester state: grid from the close of the first candle. -/
def initialBTState (initialPrice : ℚ) (cfg : GridConfig) : BTState :=
  { grid := calculateGridLevels initialPrice cfg.gridSpacingPct cfg.gridLevels
      cfg.capitalUsd 6,
    core := { buyOrders := [], gridFills := [], completedTrades := [],
              equity := cfg.capitalUsd },
    peakEquity := cfg.capitalUsd,
    maxDrawdown := 0,
    dailyReturns := [] }

/-- The backtester state after replaying every candle (`none` on an empty
candle array, where the source throws). -/
def btFinalState (candles : List OHLCV) (cfg : GridConfig) : Option BTState :=
  match candles with
  | [] => none
  | c0 :: _ => some (btLoop cfg.capitalUsd candles 0 (initialBTState c0.close cfg))

/-- `calculateSharpe` from `backtester.ts` lines 193–206.  `sqrtFn` stands for
`Math.sqrt` (a fixed pure function of the runtime, kept abstract since square
roots leave `ℚ`). -/
def calculateSharpe (sqrtFn : ℚ → ℚ) (dailyReturns : List ℚ) : ℚ :=
  if dailyReturns.length < 2 then 0
  else
    let mean := dailyReturns.sum / (dailyReturns.length : ℚ)
    let variance := ((dailyReturns.map (fun r => (r - mean) ^ 2)).sum) /
      (dailyReturns.length : ℚ)
    let stdDev := sqrtFn variance
    if stdDev = 0 then 0
    else mean / stdDev * sqrtFn 365

/-- The ambient runtime state an agent process could observe: the stream of
`Math.random()` draws and the `Date.now()` clock.  `simulateFill` consumes it;
the backtester never does. -/
structure RandEnv where
  randoms : ℕ → ℚ
  nowMs : ℤ

/-- `runBacktest` from `backtester.ts` lines 36–188.  The environment `env`
and the `riskProfile` argument are threaded faithfully: the source accepts a
risk profile it never reads, and never samples randomness or the clock. -/
def runBacktest (sqrtFn : ℚ → ℚ) (env : RandEnv) (candles : List OHLCV)
    (cfg : GridConfig) (riskProfile : RiskProfile) : Option BacktestResult :=
  match btFinalState candles cfg with
  | none => none
  | some st =>
    let winningTrades := st.core.completedTrades.countP
      (fun t => t.sellPrice > t.buyPrice)
    let losingTrades := st.core.completedTrades.countP
      (fun t => t.sellPrice ≤ t.buyPrice)
    let totalTrades := st.core.completedTrades.length
    let winRate := if totalTrades > 0 then
      (winningTrades : ℚ) / totalTrades * 100 else 0
    let totalPnl := st.core.equity - cfg.capitalUsd
    let totalPnlPct := totalPnl / cfg.capitalUsd * 100
    some { totalTrades := totalTrades,
           winningTrades := winningTrades,
           losingTrades := losingTrades,
           winRate := winRate,
           totalPnl := totalPnl,
           totalPnlPct := totalPnlPct,
           maxDrawdown := st.maxDrawdown,
           sharpeRatio := calculateSharpe sqrtFn st.dailyReturns,
           gridFills := st.core.gridFills }

/-- The per-candle return series `dailyReturns` accumulated by `runBacktest`
and fed to `calculateSharpe` (empty for an empty candle array). -/
def runBacktestReturns (candles : List OHLCV) (cfg : GridConfig) : List ℚ :=
  match btFinalState candles cfg with
  | none => []
  | some st => st.dailyReturns

-- ─── Shared helper lemmas ───────────────────────────────────

/-- `findIdx?` returning an index yields an element at that index satisfying
the predicate. -/
theorem findIdx?_some_get {α : Type} (pred : α → Bool) :
    ∀ (l : List α) (i : ℕ), l.findIdx? pred = some i →
      ∃ a, l.get? i = some a ∧ pred a = true := by
  intro l
  induction l with
  | nil => intro i h; simp [List.findIdx?_nil] at h
  | cons x xs ih =>
    intro i h
    rw [List.findIdx?_cons] at h
    by_cases hx : pred x
    · rw [if_pos hx] at h
      obtain rfl : (0 : ℕ) = i := Option.some.inj h
      exact ⟨x, rfl, hx⟩
    · rw [if_neg hx, List.findIdx?_succ] at h
      cases hfi : xs.findIdx? pred with
      | none => rw [hfi] at h; simp at h
      | some j =>
        rw [hfi] at h
        obtain rfl : j + 1 = i := by simpa using h
        obtain ⟨a, hget, hpa⟩ := ih j hfi
        exact ⟨a, by simpa using hget, hpa⟩

-- ─── Fixed concrete inputs used by witnesses and counterexamples ───

/-- A concrete low-risk profile (shape of `RISK_PROFILES.low`). -/
def riskProfileW : RiskProfile :=
  { name := "low", maxDrawdownPct := 10, maxPositionPct := 10,
    maxOpenPositions := 3, dailyLossLimitPct := 5, gridSpacingMinPct := 1,
    maxSlippageBps := 50 }

/-- A portfolio state in drawdown breach and daily-loss breach at once. -/
def killStateW : PortfolioState :=
  { totalCapital := 100, currentDrawdownPct := 50, dailyPnlPct := -10,
    openPositionCount := 0, openPositionValue := 0 }

/-- A portfolio state in drawdown breach only. -/
def drawdownStateW : PortfolioState :=
  { totalCapital := 100, currentDrawdownPct := 50, dailyPnlPct := 0,
    openPositionCount := 0, openPositionValue := 0 }

/-- A healthy portfolio state (no limit close to breached). -/
def healthyStateW : PortfolioState :=
  { totalCapital := 100, currentDrawdownPct := 0, dailyPnlPct := 0,
    openPositionCount := 0, openPositionValue := 0 }

/-- An order whose notional (1000) far exceeds 10% of a 100-capital. -/
def oversizedOrderW : ProposedOrder :=
  { action := Side.buy, price := 1, quantity := 1000, pair := "SOL/USDC" }

-- ─── C2 ─────────────────────────────────────────────────────

/-- Claim C2: for every `PortfolioState` in which `currentDrawdownPct ≥
maxDrawdownPct` and `dailyPnlPct ≤ -dailyLossLimitPct` hold simultaneously,
`checkKillSwitch` returns action `shutdown` and never `exit_all` — the checks
run in a fixed priority order with the shutdown condition first, and only the
first matching condition is reported. -/
theorem checkKillSwitch_shutdown_priority (profile : RiskProfile)
    (state : PortfolioState)
    (hdd : state.currentDrawdownPct ≥ profile.maxDrawdownPct)
    (hdl : state.dailyPnlPct ≤ -profile.dailyLossLimitPct) :
    (checkKillSwitch profile state).action = KillAction.shutdown ∧
      (checkKillSwitch profile state).action ≠ KillAction.exitAll := by
  unfold checkKillSwitch
  rw [if_pos hdd]
  exact ⟨rfl, by simp⟩

/-- Witness for C2: a concrete profile and state with both limits breached. -/
theorem checkKillSwitch_shutdown_priority_witness :
    (checkKillSwitch riskProfileW killStateW).action = KillAction.shutdown ∧
      (checkKillSwitch riskProfileW killStateW).action ≠ KillAction.exitAll :=
  checkKillSwitch_shutdown_priority riskProfileW killStateW
    (by norm_num [riskProfileW, killStateW])
    (by norm_num [riskProfileW, killStateW])

-- ─── C3 ─────────────────────────────────────────────────────

/-- Claim C3 counterexample: an order whose notional exceeds
`totalCapital * maxPositionPct / 100` IS rejected outright when the portfolio
is already in drawdown breach — `checkTradeAllowed` returns `allowed = false`
with no adjusted quantity, refuting the unconditional claim that such orders
are never rejected. -/
theorem checkTradeAllowed_reject_counterexample :
    oversizedOrderW.price * oversizedOrderW.quantity >
        drawdownStateW.totalCapital * (riskProfileW.maxPositionPct / 100) ∧
      (checkTradeAllowed riskProfileW oversizedOrderW drawdownStateW).allowed
          = false ∧
      (checkTradeAllowed riskProfileW oversizedOrderW drawdownStateW).adjustedQuantity
          = none := by
  norm_num [checkTradeAllowed, riskProfileW, oversizedOrderW, drawdownStateW]

/-- Claim C3 (amended): provided none of the three prior checks fires
(drawdown below limit, daily loss above the negative limit, open positions
below the cap) and the order price is positive, an order whose notional
exceeds `totalCapital * maxPositionPct / 100` is allowed with
`adjustedQuantity = maxPositionValue / price`, strictly less than the
requested quantity. -/
theorem checkTradeAllowed_oversized_adjusted (profile : RiskProfile)
    (order : ProposedOrder) (state : PortfolioState)
    (h1 : state.currentDrawdownPct < profile.maxDrawdownPct)
    (h2 : -profile.dailyLossLimitPct < state.dailyPnlPct)
    (h3 : state.openPositionCount < profile.maxOpenPositions)
    (hp : 0 < order.price)
    (hn : state.totalCapital * (profile.maxPositionPct / 100) <
      order.price * order.quantity) :
    checkTradeAllowed profile order state =
      { allowed := true,
        reason := "Position size adjusted to fit max position limit",
        adjustedQuantity := some
          (state.totalCapital * (profile.maxPositionPct / 100) / order.price) } ∧
    state.totalCapital * (profile.maxPositionPct / 100) / order.price <
      order.quantity := by
  constructor
  · unfold checkTradeAllowed
    rw [if_neg (not_le.mpr h1), if_neg (not_le.mpr h2), if_neg (not_le.mpr h3)]
    exact if_pos hn
  · rw [div_lt_iff₀ hp]
    calc state.totalCapital * (profile.maxPositionPct / 100)
        < order.price * order.quantity := hn
      _ = order.quantity * order.price := mul_comm _ _

/-- Witness for C3 (amended): a healthy state, capital 100, max position 10%,
order of notional 1000 → allowed with adjusted quantity 10 < 1000. -/
theorem checkTradeAllowed_oversized_adjusted_witness :
    checkTradeAllowed riskProfileW oversizedOrderW healthyStateW =
      { allowed := true,
        reason := "Position size adjusted to fit max position limit",
        adjustedQuantity := some
          (healthyStateW.totalCapital * (riskProfileW.maxPositionPct / 100) /
            oversizedOrderW.price) } ∧
    healthyStateW.totalCapital * (riskProfileW.maxPositionPct / 100) /
        oversizedOrderW.price < oversizedOrderW.quantity :=
  checkTradeAllowed_oversized_adjusted riskProfileW oversizedOrderW healthyStateW
    (by norm_num [riskProfileW, healthyStateW])
    (by norm_num [riskProfileW, healthyStateW])
    (by norm_num [riskProfileW, healthyStateW])
    (by norm_num [oversizedOrderW])
    (by norm_num [riskProfileW, healthyStateW, oversizedOrderW])

-- ─── C7 ─────────────────────────────────────────────────────

/-- A buy order at price 100, quantity 1. -/
def buyOrder100 : OrderMessage :=
  { timestamp := 0, orderId := "entry-1", pair := "SOL/USDC",
    action := Side.buy, price := 100, quantity := 1, slippageBps := 50,
    strategy := Strategy.grid }

/-- A fill of `buyOrder100` at price 100, quantity 1, fee 0. -/
def buyFill100 : PaperFill :=
  { orderId := "entry-1", fillPrice := 100, fillQuantity := 1, fee := 0,
    slippageBps := 0, timestamp := 0 }

/-- A sell order at price 110, quantity 1. -/
def sellOrder110 : OrderMessage :=
  { timestamp := 1, orderId := "exit-1", pair := "SOL/USDC",
    action := Side.sell, price := 110, quantity := 1, slippageBps := 50,
    strategy := Strategy.grid }

/-- A fill of `sellOrder110` at price 110, quantity 1, fee 0. -/
def sellFill110 : PaperFill :=
  { orderId := "exit-1", fillPrice := 110, fillQuantity := 1, fee := 0,
    slippageBps := 0, timestamp := 1 }

/-- The single open position after `buyFill100` is processed. -/
def openBuyPos : OpenPosition :=
  { orderId := "entry-1", side := Side.buy, price := 100, quantity := 1,
    fee := 0, timestamp := 0, gridLevel := none, strategy := Strategy.grid }

/-- The portfolio after the opening buy fill. -/
def portAfterBuy : PaperPortfolio :=
  { initialCapital := 1000, currentCapital := 1000, peakCapital := 1000,
    openPositions := [openBuyPos],
    closedTrades := [], dailyPnl := 0, dailyStartCapital := 1000,
    tradeCount := 0, winCount := 0 }

/-- The round-trip closed trade: entry 100, exit 110, quantity 1, fee 0. -/
def closedTradeW : ClosedTrade :=
  { entryOrderId := "entry-1", exitOrderId := "exit-1", side := Side.buy,
    entryPrice := 100, exitPrice := 110, quantity := 1, pnl := 10,
    pnlPct := 10, fees := 0, durationMs := 1, strategy := Strategy.grid }

/-- The portfolio after the round trip: capital 1010, no open position. -/
def portAfterSell : PaperPortfolio :=
  { initialCapital := 1000, currentCapital := 1010, peakCapital := 1010,
    openPositions := [], closedTrades := [], dailyPnl := 10,
    dailyStartCapital := 1000, tradeCount := 1, winCount := 1 }

/-- Claim C7: on a fresh `PaperPortfolio`, a buy fill at price 100 / qty 1 /
fee 0 followed by a sell fill at price 110 / qty 1 / fee 0 returns a
`ClosedTrade` with `pnl = 10` and `pnlPct = 10`, and leaves the open-position
list empty. -/
theorem paperPortfolio_round_trip :
    (processExecution (processExecution (mkPortfolio 1000) buyOrder100 buyFill100).2
        sellOrder110 sellFill110).1 = some closedTradeW ∧
    closedTradeW.pnl = 10 ∧ closedTradeW.pnlPct = 10 ∧
    (processExecution (processExecution (mkPortfolio 1000) buyOrder100 buyFill100).2
        sellOrder110 sellFill110).2.openPositions = [] := by
  have hbuy : (processExecution (mkPortfolio 1000) buyOrder100 buyFill100).2
      = portAfterBuy := by
    simp [processExecution, closePosition, openPosition, mkPortfolio,
      buyOrder100, buyFill100, List.findIdx?_nil, portAfterBuy, openBuyPos]
  have hfind : List.findIdx? (fun pos => pos.side != sellOrder110.action)
      portAfterBuy.openPositions = some 0 := by
    simp [portAfterBuy, openBuyPos, sellOrder110, List.findIdx?_cons]
  have hclose : closePosition portAfterBuy 0 sellFill110 =
      some (closedTradeW, portAfterSell) := by
    norm_num [closePosition, calculatePnL, roundTo, jsRound, portAfterBuy,
      openBuyPos, sellFill110, closedTradeW, portAfterSell]
  have hsell : processExecution portAfterBuy sellOrder110 sellFill110 =
      (some closedTradeW, portAfterSell) := by
    simp only [processExecution, hfind, hclose]
  rw [hbuy, hsell]
  exact ⟨rfl, rfl, rfl, rfl⟩

-- ─── C10 ────────────────────────────────────────────────────

/-- Claim C10: when `processExecution` finds an opposite-side open position
(at index `idx`), the returned `ClosedTrade` has quantity
`min entryQuantity fillQuantity`, and the whole entry position is removed:
the open-position count decreases by exactly one, with no residual position
for an unmatched remainder. -/
theorem processExecution_close_removes_entry (p : PaperPortfolio)
    (order : OrderMessage) (fill : PaperFill) (idx : ℕ)
    (h : p.openPositions.findIdx? (fun pos => pos.side != order.action) = some idx) :
    (processExecution p order fill).2.openPositions.length =
        p.openPositions.length - 1 ∧
      ∃ t entry, (processExecution p order fill).1 = some t ∧
        p.openPositions.get? idx = some entry ∧
        t.quantity = min entry.quantity fill.fillQuantity := by
  obtain ⟨entry, hget, hpred⟩ := findIdx?_some_get _ _ _ h
  have hidx : idx < p.openPositions.length := by
    rcases List.get?_eq_some.mp hget with ⟨hlt, _⟩
    exact hlt
  unfold processExecution closePosition
  rw [h]
  simp only [hget]
  refine ⟨?_, ?_⟩
  · simp only [List.length_eraseIdx, if_pos hidx]
  · exact ⟨_, entry, rfl, rfl, rfl⟩

/-- The entry position for the C10 witness: open buy of quantity 2. -/
def openBuyPos2 : OpenPosition := { openBuyPos with quantity := 2 }

/-- The portfolio for the C10 witness: one open buy of quantity 2. -/
def portWithBuy2 : PaperPortfolio := { portAfterBuy with openPositions := [openBuyPos2] }

/-- Witness for C10: a portfolio holding one open buy of quantity 2, closed by
a sell fill of quantity 1: trade quantity is `min 2 1 = 1` and the position
count drops from 1 to 0. -/
theorem processExecution_close_removes_entry_witness :
    (processExecution portWithBuy2 sellOrder110 sellFill110).2.openPositions.length =
        portWithBuy2.openPositions.length - 1 ∧
      ∃ t entry, (processExecution portWithBuy2 sellOrder110 sellFill110).1 = some t ∧
        portWithBuy2.openPositions.get? 0 = some entry ∧
        t.quantity = min entry.quantity sellFill110.fillQuantity :=
  processExecution_close_removes_entry portWithBuy2 sellOrder110 sellFill110 0
    (by simp [portWithBuy2, openBuyPos2, openBuyPos, sellOrder110,
      List.findIdx?_cons])

-- ─── C4 ─────────────────────────────────────────────────────

/-- A single flat candle, far fewer than the 15 candles RSI requires. -/
def rsiShortCandle : OHLCV :=
  { timestamp := 0, open_ := 100, high := 100, low := 100, close := 100,
    volume := 0 }

/-- Claim C4 counterexample: on a candle array shorter than `minCandles`,
`RSIIndicator.compute` returns a neutral signal with confidence 0.5, NOT the
zero-confidence result the claim requires. -/
theorem rsiCompute_short_nonzero_confidence_counterexample :
    ([rsiShortCandle] : List OHLCV).length < rsiMinCandles ∧
    (rsiCompute [rsiShortCandle] rsiDefaultParams).signal = Signal.neutral ∧
    (rsiCompute [rsiShortCandle] rsiDefaultParams).confidence = 1/2 ∧
    (rsiCompute [rsiShortCandle] rsiDefaultParams).confidence ≠ 0 := by
  norm_num [rsiCompute, calculateRSI, rsiDefaultParams, rsiMinCandles,
    rsiShortCandle]

/-- Claim C4 (amended): on a candle array shorter than `minCandles`, the RSI
indicator itself returns signal neutral with confidence 0.5 (because
`calculateRSI` falls back to the neutral midpoint 50) — never throwing — and
the engine-level `compute` wrapper skips the indicator entirely, returning
`null` rather than any output. -/
theorem rsiCompute_insufficient_candles (candles : List OHLCV)
    (h : candles.length < rsiMinCandles) :
    rsiCompute candles rsiDefaultParams =
      { signal := Signal.neutral, confidence := 1/2, values := [("rsi", 50)] } ∧
    engineComputeRSI candles = none := by
  have hlen : candles.length < rsiDefaultParams.period + 1 := by
    simpa [rsiDefaultParams, rsiMinCandles] using h
  constructor
  · simp only [rsiCompute, calculateRSI, List.length_map]
    rw [if_pos hlen]
    norm_num [rsiDefaultParams, roundTo, jsRound]
  · unfold engineComputeRSI
    rw [if_pos h]

/-- Witness for C4 (amended): the single-candle array. -/
theorem rsiCompute_insufficient_candles_witness :
    rsiCompute [rsiShortCandle] rsiDefaultParams =
      { signal := Signal.neutral, confidence := 1/2, values := [("rsi", 50)] } ∧
    engineComputeRSI [rsiShortCandle] = none :=
  rsiCompute_insufficient_candles [rsiShortCandle] (by decide)

-- ─── C6 ─────────────────────────────────────────────────────

/-- A buy order priced just above a 6-decimal rounding boundary. -/
def roundEdgeBuyOrder : OrderMessage :=
  { timestamp := 0, orderId := "edge-1", pair := "SOL/USDC",
    action := Side.buy, price := 10000001/10000000, quantity := 1,
    slippageBps := 20000/10000001, strategy := Strategy.grid }

/-- Claim C6 counterexample: for a buy order at price 1.0000001 with the
random draw 1, the 6-decimal rounding of the slipped price yields fill price
1.0 — strictly BELOW the order price, refuting the claim that a buy fill
price is always ≥ the order price. -/
theorem simulateFill_rounding_counterexample :
    roundEdgeBuyOrder.action = Side.buy ∧ 0 < roundEdgeBuyOrder.price ∧
    ((0:ℚ) ≤ 1 ∧ (1:ℚ) ≤ 1) ∧
    (simulateFill roundEdgeBuyOrder 1 0).fillPrice < roundEdgeBuyOrder.price := by
  refine ⟨rfl, by norm_num [roundEdgeBuyOrder], ⟨by norm_num, le_refl 1⟩, ?_⟩
  have habs : |((1:ℚ) - 1/2) * bpsToDecimal roundEdgeBuyOrder.slippageBps|
      = 1/10000001 := by
    rw [abs_of_nonneg (by norm_num [bpsToDecimal, roundEdgeBuyOrder])]
    norm_num [bpsToDecimal, roundEdgeBuyOrder]
  simp only [simulateFill, habs]
  norm_num [roundEdgeBuyOrder, roundTo, jsRound]

/-- Claim C6 (amended): for every order with positive price, nonnegative
slippage budget and a random draw in `[0,1]`: the PRE-ROUNDING fill price
moves against the trader (a buy at or above, a sell at or below the order
price); the reported `fillPrice` is that value rounded to 6 decimals, hence
within 5·10⁻⁷ of it (so the posted fill can cross the order price by less
than half an ulp); the slippage fraction magnitude is at most
`slippageBps/2` (as a fraction of price, before rounding); the fee is the
flat 25 bps of the fill notional rounded to 6 decimals; and the reported
slippage bps is rounded to 1 decimal. -/
theorem simulateFill_spec (order : OrderMessage) (rand : ℚ) (now : ℤ)
    (hr0 : 0 ≤ rand) (hr1 : rand ≤ 1) (hp : 0 < order.price)
    (hb : 0 ≤ order.slippageBps) :
    |(rand - 1/2) * bpsToDecimal order.slippageBps| ≤
        order.slippageBps / 2 / 10000 ∧
    (order.action = Side.buy →
      order.price ≤
          order.price * (1 + |(rand - 1/2) * bpsToDecimal order.slippageBps|) ∧
      (simulateFill order rand now).fillPrice =
        roundTo (order.price *
          (1 + |(rand - 1/2) * bpsToDecimal order.slippageBps|)) 6) ∧
    (order.action = Side.sell →
      order.price * (1 - |(rand - 1/2) * bpsToDecimal order.slippageBps|) ≤
          order.price ∧
      (simulateFill order rand now).fillPrice =
        roundTo (order.price *
          (1 - |(rand - 1/2) * bpsToDecimal order.slippageBps|)) 6) ∧
    |(simulateFill order rand now).fillPrice -
        order.price * (1 + |(rand - 1/2) * bpsToDecimal order.slippageBps| *
          (if order.action = Side.buy then 1 else -1))| ≤ 1/2000000 ∧
    (simulateFill order rand now).fee =
      roundTo ((simulateFill order rand now).fillPrice * order.quantity *
        bpsToDecimal FEE_BPS) 6 ∧
    (simulateFill order rand now).slippageBps =
      roundTo (|((simulateFill order rand now).fillPrice - order.price) /
        order.price * 10000|) 1 := by
  have habs : |rand - 1/2| ≤ 1/2 := by
    rw [abs_le]; constructor <;> linarith
  have hbd : (0:ℚ) ≤ bpsToDecimal order.slippageBps := by
    unfold bpsToDecimal; positivity
  have hsn : (0:ℚ) ≤ |(rand - 1/2) * bpsToDecimal order.slippageBps| :=
    abs_nonneg _
  refine ⟨?_, ?_, ?_, ?_, rfl, rfl⟩
  · rw [abs_mul, abs_of_nonneg hbd]
    calc |rand - 1/2| * bpsToDecimal order.slippageBps
        ≤ 1/2 * bpsToDecimal order.slippageBps :=
          mul_le_mul_of_nonneg_right habs hbd
      _ = order.slippageBps / 2 / 10000 := by unfold bpsToDecimal; ring
  · intro ha
    constructor
    · nlinarith [hsn, hp]
    · simp only [simulateFill, ha, if_true, mul_one]
  · intro ha
    have hne : order.action ≠ Side.buy := by rw [ha]; intro hc; cases hc
    constructor
    · nlinarith [hsn, hp]
    · simp only [simulateFill, if_neg hne]
      congr 1
      ring
  · rcases eq_or_ne order.action Side.buy with ha | ha
    · simp only [simulateFill, ha, if_pos rfl]
      have h1 := roundTo_le (order.price *
        (1 + |(rand - 1/2) * bpsToDecimal order.slippageBps| * 1)) 6
      have h2 := le_roundTo (order.price *
        (1 + |(rand - 1/2) * bpsToDecimal order.slippageBps| * 1)) 6
      rw [abs_le]
      constructor <;> [skip; skip] <;>
        · norm_num at h1 h2 ⊢
          linarith
    · simp only [simulateFill, if_neg ha]
      have h1 := roundTo_le (order.price *
        (1 + |(rand - 1/2) * bpsToDecimal order.slippageBps| * (-1))) 6
      have h2 := le_roundTo (order.price *
        (1 + |(rand - 1/2) * bpsToDecimal order.slippageBps| * (-1))) 6
      rw [abs_le]
      constructor <;>
        · norm_num at h1 h2 ⊢
          linarith

/-- Witness for C6 (amended): buy order at price 100, quantity 2, slippage
budget 50 bps, random draw 3/4. -/
theorem simulateFill_spec_witness :
    let order : OrderMessage :=
      { timestamp := 0, orderId := "w-1", pair := "SOL/USDC",
        action := Side.buy, price := 100, quantity := 2, slippageBps := 50,
        strategy := Strategy.grid }
    |((3:ℚ)/4 - 1/2) * bpsToDecimal order.slippageBps| ≤
        order.slippageBps / 2 / 10000 ∧
    (order.action = Side.buy →
      order.price ≤
          order.price * (1 + |((3:ℚ)/4 - 1/2) * bpsToDecimal order.slippageBps|) ∧
      (simulateFill order (3/4) 0).fillPrice =
        roundTo (order.price *
          (1 + |((3:ℚ)/4 - 1/2) * bpsToDecimal order.slippageBps|)) 6) ∧
    (order.action = Side.sell →
      order.price * (1 - |((3:ℚ)/4 - 1/2) * bpsToDecimal order.slippageBps|) ≤
          order.price ∧
      (simulateFill order (3/4) 0).fillPrice =
        roundTo (order.price *
          (1 - |((3:ℚ)/4 - 1/2) * bpsToDecimal order.slippageBps|)) 6) ∧
    |(simulateFill order (3/4) 0).fillPrice -
        order.price * (1 + |((3:ℚ)/4 - 1/2) * bpsToDecimal order.slippageBps| *
          (if order.action = Side.buy then 1 else -1))| ≤ 1/2000000 ∧
    (simulateFill order (3/4) 0).fee =
      roundTo ((simulateFill order (3/4) 0).fillPrice * order.quantity *
        bpsToDecimal FEE_BPS) 6 ∧
    (simulateFill order (3/4) 0).slippageBps =
      roundTo (|((simulateFill order (3/4) 0).fillPrice - order.price) /
        order.price * 10000|) 1 :=
  simulateFill_spec _ (3/4) 0 (by norm_num) (by norm_num) (by norm_num)
    (by norm_num)

-- ─── C1 ─────────────────────────────────────────────────────

/-- The `computeAll` loop accumulator equals the spec-level counts and
confidence sum, for any starting accumulator. -/
theorem foldl_tallyStep (l : List (Option IndicatorOutput)) :
    ∀ acc : VoteTally,
      l.foldl tallyStep acc =
        { buyCount := acc.buyCount + buyVotes l,
          sellCount := acc.sellCount + sellVotes l,
          neutralCount := acc.neutralCount + neutralVotes l,
          totalConfidence :=
            acc.totalConfidence + ((voteOutputs l).map (·.confidence)).sum } := by
  induction l with
  | nil =>
    intro acc
    simp [buyVotes, sellVotes, neutralVotes, voteOutputs]
  | cons head tail ih =>
    intro acc
    cases head with
    | none =>
      simp only [List.foldl_cons, tallyStep]
      rw [ih]
      simp [buyVotes, sellVotes, neutralVotes, voteOutputs]
    | some o =>
      simp only [List.foldl_cons]
      rw [ih]
      cases hsig : o.signal <;>
        · simp [tallyStep, hsig, buyVotes, sellVotes, neutralVotes, voteOutputs,
            List.countP_cons, VoteTally.mk.injEq]
          refine ⟨by omega, by ring⟩

/-- Every vote is counted in exactly one of the three buckets. -/
theorem votes_total (results : List (Option IndicatorOutput)) :
    buyVotes results + sellVotes results + neutralVotes results
      = (voteOutputs results).length := by
  induction results with
  | nil => simp [buyVotes, sellVotes, neutralVotes, voteOutputs]
  | cons head tail ih =>
    cases head with
    | none => simpa [buyVotes, sellVotes, neutralVotes, voteOutputs] using ih
    | some o =>
      cases hsig : o.signal <;>
        · simp only [buyVotes, sellVotes, neutralVotes, voteOutputs,
            List.filterMap_cons_some, id, List.countP_cons, hsig,
            List.length_cons] at ih ⊢
          simp [hsig]
          omega

/-- Eleven voting indicators: 6 buy at confidence 0.8, 3 sell and 2 neutral
at confidence 0 — the stub-indicator scenario of the claim. -/
def consensusInputW : List (Option IndicatorOutput) :=
  [some { signal := Signal.buy, confidence := 4/5 },
   some { signal := Signal.buy, confidence := 4/5 },
   some { signal := Signal.buy, confidence := 4/5 },
   some { signal := Signal.buy, confidence := 4/5 },
   some { signal := Signal.buy, confidence := 4/5 },
   some { signal := Signal.buy, confidence := 4/5 },
   some { signal := Signal.sell, confidence := 0 },
   some { signal := Signal.sell, confidence := 0 },
   some { signal := Signal.sell, confidence := 0 },
   some { signal := Signal.neutral, confidence := 0 },
   some { signal := Signal.neutral, confidence := 0 }]

/-- Claim C1 counterexample: with 6 buy votes of average confidence 0.8
(> 0.75), 3 sell and 2 neutral, `computeAll` yields plain `buy`, NOT
`strong_buy` — the strength test uses the average confidence over ALL voting
indicators (here 4.8/11 ≈ 0.44), not the average over the winning category,
refuting both the general rule and the 6/3/2 example of the claim. -/
theorem consensus_category_avg_counterexample :
    buyVotes consensusInputW = 6 ∧ sellVotes consensusInputW = 3 ∧
    neutralVotes consensusInputW = 2 ∧
    buyCategoryAvgConfidence consensusInputW = 4/5 ∧
    ((4:ℚ)/5 > 3/4) ∧
    (computeAllConsensus consensusInputW).signal = ConsensusSignal.buy ∧
    (computeAllConsensus consensusInputW).signal ≠ ConsensusSignal.strongBuy := by
  refine ⟨?_, ?_, ?_, ?_, by norm_num, ?_, ?_⟩ <;>
    simp [consensusInputW, buyVotes, sellVotes, neutralVotes,
      buyCategoryAvgConfidence, voteOutputs, computeAllConsensus,
      computeAllTally, tallyStep, List.countP_cons, List.filterMap_cons] <;>
    norm_num

/-- Claim C1 (amended): a strict buy (resp. sell) plurality yields
`strong_buy` (resp. `strong_sell`) exactly when the average confidence over
ALL voting indicators — not just the winning category — exceeds 0.75, and
plain `buy`/`sell` otherwise; a tie or no plurality yields `neutral`; the
reported consensus confidence is that overall average rounded to 2 decimals,
and the counts are the per-category vote counts. -/
theorem computeAllConsensus_plurality_overall_avg
    (results : List (Option IndicatorOutput)) :
    computeAllConsensus results =
      { signal :=
          if buyVotes results > sellVotes results ∧
              buyVotes results > neutralVotes results then
            (if overallAvgConfidence results > 3/4 then ConsensusSignal.strongBuy
             else ConsensusSignal.buy)
          else if sellVotes results > buyVotes results ∧
              sellVotes results > neutralVotes results then
            (if overallAvgConfidence results > 3/4 then ConsensusSignal.strongSell
             else ConsensusSignal.sell)
          else ConsensusSignal.neutral,
        confidence := roundTo (overallAvgConfidence results) 2,
        buyCount := buyVotes results, sellCount := sellVotes results,
        neutralCount := neutralVotes results } := by
  have htot : buyVotes results + sellVotes results + neutralVotes results
      = (voteOutputs results).length := votes_total results
  have htally : computeAllTally results =
      { buyCount := buyVotes results, sellCount := sellVotes results,
        neutralCount := neutralVotes results,
        totalConfidence := ((voteOutputs results).map (·.confidence)).sum } := by
    unfold computeAllTally
    rw [foldl_tallyStep]
    simp
  have havg :
      (if 0 < buyVotes results + sellVotes results + neutralVotes results then
          ((voteOutputs results).map (·.confidence)).sum /
            ((buyVotes results + sellVotes results + neutralVotes results : ℕ) : ℚ)
        else 0) = overallAvgConfidence results := by
    rw [htot]
    unfold overallAvgConfidence
    rfl
  unfold computeAllConsensus
  rw [htally]
  simp only []
  rw [havg]

-- ─── C8 ─────────────────────────────────────────────────────

/-- Claim C8: `runBacktest` is deterministic — for the same candle array, grid
config and risk profile, its result does not depend on the ambient runtime
environment (random stream / clock), so two invocations with the same inputs
return `BacktestResult` values identical in every field: the backtest path
contains no randomness. -/
theorem runBacktest_deterministic (sqrtFn : ℚ → ℚ) (env1 env2 : RandEnv)
    (candles : List OHLCV) (cfg : GridConfig) (rp : RiskProfile) :
    runBacktest sqrtFn env1 candles cfg rp =
      runBacktest sqrtFn env2 candles cfg rp := rfl

-- ─── C9 ─────────────────────────────────────────────────────

/-- At candle index 0 no return entry is pushed. -/
theorem processCandle_dailyReturns_zero (cap : ℚ) (st : BTState) (c : OHLCV) :
    (processCandle cap 0 st c).dailyReturns = st.dailyReturns := by
  unfold processCandle
  simp

/-- At candle index ≥ 2 the pushed return entry is exactly 0, because the
previous equity is read as the current equity. -/
theorem processCandle_dailyReturns_ge2 (cap : ℚ) (i : ℕ) (st : BTState)
    (c : OHLCV) (h : 2 ≤ i) :
    (processCandle cap i st c).dailyReturns = st.dailyReturns ++ [0] := by
  unfold processCandle
  have h0 : 0 < i := by omega
  have h1 : ¬ (i = 1) := by omega
  simp [h0, h1]

/-- At candle index 1 exactly one return entry is pushed. -/
theorem processCandle_dailyReturns_one (cap : ℚ) (st : BTState) (c : OHLCV) :
    ∃ v, (processCandle cap 1 st c).dailyReturns = st.dailyReturns ++ [v] := by
  unfold processCandle
  simp

/-- From index 2 on, the candle loop appends one zero per candle. -/
theorem btLoop_dailyReturns_ge2 (cap : ℚ) :
    ∀ (cs : List OHLCV) (i : ℕ) (st : BTState), 2 ≤ i →
      (btLoop cap cs i st).dailyReturns =
        st.dailyReturns ++ List.replicate cs.length 0 := by
  intro cs
  induction cs with
  | nil => intro i st h; simp [btLoop]
  | cons c rest ih =>
    intro i st h
    simp only [btLoop]
    rw [ih (i+1) _ (by omega), processCandle_dailyReturns_ge2 cap i st c h]
    simp [List.replicate_succ]

/-- Claim C9: the per-candle return series that `runBacktest` feeds to the
Sharpe computation is degenerate — for every candle array of length `n ≥ 2`
it has `n - 1` entries and every entry after the first is exactly 0, because
for every candle index `i > 1` the previous equity is assigned the current
equity before the return is computed; the `sharpeRatio` field equals
`calculateSharpe` of exactly this series. -/
theorem runBacktestReturns_degenerate (candles : List OHLCV) (cfg : GridConfig)
    (h : 2 ≤ candles.length) :
    (runBacktestReturns candles cfg).length = candles.length - 1 ∧
    (∀ x ∈ (runBacktestReturns candles cfg).tail, x = 0) ∧
    (∀ (sqrtFn : ℚ → ℚ) (env : RandEnv) (rp : RiskProfile) (r : BacktestResult),
      runBacktest sqrtFn env candles cfg rp = some r →
      r.sharpeRatio = calculateSharpe sqrtFn (runBacktestReturns candles cfg)) := by
  match candles, h with
  | c0 :: c1 :: rest, _ =>
    obtain ⟨v, hv⟩ := processCandle_dailyReturns_one cfg.capitalUsd
      (processCandle cfg.capitalUsd 0 (initialBTState c0.close cfg) c0) c1
    have hret : runBacktestReturns (c0 :: c1 :: rest) cfg =
        v :: List.replicate rest.length 0 := by
      unfold runBacktestReturns btFinalState
      simp only [btLoop]
      rw [btLoop_dailyReturns_ge2 cfg.capitalUsd rest 2 _ (le_refl 2)]
      rw [hv, processCandle_dailyReturns_zero]
      have : (initialBTState c0.close cfg).dailyReturns = [] := rfl
      rw [this]
      simp
    refine ⟨?_, ?_, ?_⟩
    · rw [hret]
      simp
    · rw [hret]
      intro x hx
      simp only [List.tail_cons] at hx
      exact (List.mem_replicate.mp hx).2
    · intro sqrtFn env rp r hr
      unfold runBacktest btFinalState at hr
      simp only [] at hr
      rw [(Option.some.inj hr).symm]
      rfl

/-- First candle of the C9 witness run. -/
def candleW0 : OHLCV :=
  { timestamp := 0, open_ := 100, high := 101, low := 99, close := 100,
    volume := 10 }

/-- Second candle of the C9 witness run. -/
def candleW1 : OHLCV :=
  { timestamp := 1, open_ := 100, high := 102, low := 100, close := 101,
    volume := 12 }

/-- Grid config for the C9 witness run. -/
def gridConfigW : GridConfig :=
  { pair := "SOL/USDC", gridLevels := 2, gridSpacingPct := 2,
    capitalUsd := 100 }

/-- Witness for C9: a concrete two-candle run has a return series of length
`2 - 1`. -/
theorem runBacktestReturns_degenerate_witness :
    2 ≤ ([candleW0, candleW1] : List OHLCV).length ∧
    (runBacktestReturns [candleW0, candleW1] gridConfigW).length =
      ([candleW0, candleW1] : List OHLCV).length - 1 :=
  ⟨by decide,
   (runBacktestReturns_degenerate [candleW0, candleW1] gridConfigW (by decide)).1⟩

-- ─── C5 ─────────────────────────────────────────────────────

instance : IsTotal GridLevel priceLE := ⟨fun a b => le_total a.price b.price⟩

instance : IsTrans GridLevel priceLE := ⟨fun _ _ _ hab hbc => le_trans hab hbc⟩

/-- The buy level the grid-calculator loop builds at loop position `j`
(level number `i = j + 1`). -/
def buyLevelAt (P s C : ℚ) (n : ℕ) (j : ℕ) : GridLevel :=
  { index := -((j+1 : ℕ) : ℤ),
    price := roundTo (P * (1 - s/100 * ((j+1 : ℕ) : ℚ))) 6,
    side := Side.buy,
    quantity := roundTo ((C / (n:ℚ)) /
      roundTo (P * (1 - s/100 * ((j+1 : ℕ) : ℚ))) 6) 9,
    filled := false }

/-- The sell level the grid-calculator loop builds at loop position `j`. -/
def sellLevelAt (P s C : ℚ) (n : ℕ) (j : ℕ) : GridLevel :=
  { index := ((j+1 : ℕ) : ℤ),
    price := roundTo (P * (1 + s/100 * ((j+1 : ℕ) : ℚ))) 6,
    side := Side.sell,
    quantity := roundTo ((C / (n:ℚ)) /
      roundTo (P * (1 + s/100 * ((j+1 : ℕ) : ℚ))) 6) 9,
    filled := false }

/-- `calculateGridLevels` is the sort of the two generation loops. -/
theorem calculateGridLevels_eq (P s C : ℚ) (n : ℕ) :
    calculateGridLevels P s n C 6 =
      ((List.range n).map (buyLevelAt P s C n) ++
        (List.range n).map (sellLevelAt P s C n)).insertionSort priceLE := rfl

/-- A rounded buy price stays strictly below the center price as long as one
spacing step exceeds half an ulp of the 6-decimal grid. -/
theorem buyPrice_lt (P s : ℚ) (n : ℕ) (j : ℕ) (hj : j < n)
    (hs : 0 < s) (hhalf : 1/2000000 < P * (s/100)) :
    roundTo (P * (1 - s/100 * (j+1 : ℕ))) 6 < P := by
  have h1 := roundTo_le (P * (1 - s/100 * (j+1 : ℕ))) 6
  have hms : (0:ℚ) < P * (s/100) := lt_trans (by norm_num) hhalf
  have hcast : (1:ℚ) ≤ ((j+1 : ℕ) : ℚ) := by
    push_cast
    norm_num
  nlinarith [h1, hms, hcast]

/-- A rounded buy price stays strictly positive as long as the lowest raw buy
price exceeds half an ulp. -/
theorem buyPrice_pos (P s : ℚ) (n : ℕ) (j : ℕ) (hj : j < n)
    (hs : 0 < s) (hhalf : 1/2000000 < P * (s/100))
    (hbot : 1/2000000 < P * (1 - s/100 * n)) :
    0 < roundTo (P * (1 - s/100 * (j+1 : ℕ))) 6 := by
  have h2 := le_roundTo (P * (1 - s/100 * (j+1 : ℕ))) 6
  have hms : (0:ℚ) < P * (s/100) := lt_trans (by norm_num) hhalf
  have hcast : ((j+1 : ℕ) : ℚ) ≤ (n : ℚ) := by
    push_cast
    have : (j:ℚ) + 1 ≤ n := by exact_mod_cast hj
    linarith
  nlinarith [h2, hms, hcast, hbot]

/-- A rounded sell price stays strictly above the center price. -/
theorem sellPrice_gt (P s : ℚ) (n : ℕ) (j : ℕ) (hj : j < n)
    (hs : 0 < s) (hhalf : 1/2000000 < P * (s/100)) :
    P < roundTo (P * (1 + s/100 * (j+1 : ℕ))) 6 := by
  have h2 := le_roundTo (P * (1 + s/100 * (j+1 : ℕ))) 6
  have hms : (0:ℚ) < P * (s/100) := lt_trans (by norm_num) hhalf
  have hcast : (1:ℚ) ≤ ((j+1 : ℕ) : ℚ) := by
    push_cast
    norm_num
  nlinarith [h2, hms, hcast]

/-- Claim C5 counterexample: at center price `P = 0.9999999` with spacing
`s = 10⁻⁶` percent (one spacing step `= 10⁻⁸·P`, far below half an ulp of the
6-decimal price grid), the raw buy price `P·(1 - 10⁻⁸) ≈ 0.99999989` rounds
UP to `1`, which is NOT below `P` (and differs from the un-rounded
`P·(1 - s/100)`): the rounding to `quoteDecimals` can push a buy level to or
above the center price. -/
theorem calculateGridLevels_rounding_counterexample :
    (0:ℚ) < 9999999/10000000 ∧ (0:ℚ) < 1/1000000 ∧
    ((calculateGridLevels (9999999/10000000) (1/1000000) 1 100 6).map
        (fun l => (l.side, l.price))) =
      [(Side.buy, 1), (Side.sell, 1)] ∧
    ¬ ((1:ℚ) < 9999999/10000000) := by
  refine ⟨by norm_num, by norm_num, ?_, by norm_num⟩
  have hb : roundTo ((999999890000001:ℚ)/1000000000000000) 6 = 1 := by
    norm_num [roundTo, jsRound]
  have hsl : roundTo ((999999909999999:ℚ)/1000000000000000) 6 = 1 := by
    norm_num [roundTo, jsRound]
  simp only [calculateGridLevels, List.insertionSort, List.orderedInsert,
    priceLE, List.range_succ, List.range_zero, List.map_cons, List.map_nil,
    List.nil_append, List.map_append, List.cons_append, Nat.cast_ofNat,
    Nat.cast_one, Nat.cast_zero, Nat.zero_add, mul_one]
  norm_num
  rw [hb, hsl]
  simp

/-- Level counts and sortedness of the generated grid. -/
theorem calculateGridLevels_counts_sorted (P s C : ℚ) (n : ℕ) :
    (calculateGridLevels P s n C 6).length = 2 * n ∧
    ((calculateGridLevels P s n C 6).filter
      (fun l => l.side == Side.buy)).length = n ∧
    ((calculateGridLevels P s n C 6).filter
      (fun l => l.side == Side.sell)).length = n ∧
    List.Sorted priceLE (calculateGridLevels P s n C 6) := by
  have hperm := List.perm_insertionSort priceLE
    ((List.range n).map (buyLevelAt P s C n) ++
      (List.range n).map (sellLevelAt P s C n))
  have hfb : List.filter (fun l => l.side == Side.buy)
      ((List.range n).map (buyLevelAt P s C n)) =
      (List.range n).map (buyLevelAt P s C n) := by
    apply List.filter_eq_self.mpr
    intro a ha
    obtain ⟨j, hj, rfl⟩ := List.mem_map.mp ha
    rfl
  have hfb2 : List.filter (fun l => l.side == Side.buy)
      ((List.range n).map (sellLevelAt P s C n)) = [] := by
    apply List.filter_eq_nil_iff.mpr
    intro a ha
    obtain ⟨j, hj, rfl⟩ := List.mem_map.mp ha
    simp [sellLevelAt]
  have hfs : List.filter (fun l => l.side == Side.sell)
      ((List.range n).map (sellLevelAt P s C n)) =
      (List.range n).map (sellLevelAt P s C n) := by
    apply List.filter_eq_self.mpr
    intro a ha
    obtain ⟨j, hj, rfl⟩ := List.mem_map.mp ha
    rfl
  have hfs2 : List.filter (fun l => l.side == Side.sell)
      ((List.range n).map (buyLevelAt P s C n)) = [] := by
    apply List.filter_eq_nil_iff.mpr
    intro a ha
    obtain ⟨j, hj, rfl⟩ := List.mem_map.mp ha
    simp [buyLevelAt]
  refine ⟨?_, ?_, ?_, ?_⟩
  · rw [calculateGridLevels_eq, hperm.length_eq]
    simp
    ring
  · rw [calculateGridLevels_eq, (hperm.filter _).length_eq,
      List.filter_append, hfb, hfb2]
    simp
  · rw [calculateGridLevels_eq, (hperm.filter _).length_eq,
      List.filter_append, hfs, hfs2]
    simp
  · rw [calculateGridLevels_eq]
    exact List.sorted_insertionSort priceLE _

/-- Per-level shape, price bounds, and the buy-side capital sum. -/
theorem calculateGridLevels_levels_sum (P s C : ℚ) (n : ℕ)
    (hn : 1 ≤ n) (hs : 0 < s)
    (hhalf : 1/2000000 < P * (s/100))
    (hbot : 1/2000000 < P * (1 - s/100 * n)) :
    (∀ l ∈ calculateGridLevels P s n C 6, l.side = Side.buy →
      0 < l.price ∧ l.price < P ∧
      ∃ i : ℕ, 1 ≤ i ∧ i ≤ n ∧ l.index = -(i:ℤ) ∧
        l.price = roundTo (P * (1 - s/100 * (i:ℚ))) 6 ∧
        l.quantity = roundTo ((C / (n:ℚ)) / l.price) 9) ∧
    (∀ l ∈ calculateGridLevels P s n C 6, l.side = Side.sell →
      P < l.price ∧
      ∃ i : ℕ, 1 ≤ i ∧ i ≤ n ∧ l.index = (i:ℤ) ∧
        l.price = roundTo (P * (1 + s/100 * (i:ℚ))) 6 ∧
        l.quantity = roundTo ((C / (n:ℚ)) / l.price) 9) ∧
    (((calculateGridLevels P s n C 6).filter (fun l => l.side == Side.buy)).map
        (fun l => l.price * ((C / (n:ℚ)) / l.price))).sum = C := by
  have hperm := List.perm_insertionSort priceLE
    ((List.range n).map (buyLevelAt P s C n) ++
      (List.range n).map (sellLevelAt P s C n))
  have hmem : ∀ l ∈ calculateGridLevels P s n C 6,
      (∃ j, j < n ∧ l = buyLevelAt P s C n j) ∨
      (∃ j, j < n ∧ l = sellLevelAt P s C n j) := by
    intro l hl
    rw [calculateGridLevels_eq] at hl
    rcases List.mem_append.mp (hperm.mem_iff.mp hl) with hb | hsm
    · obtain ⟨j, hj, rfl⟩ := List.mem_map.mp hb
      exact Or.inl ⟨j, List.mem_range.mp hj, rfl⟩
    · obtain ⟨j, hj, rfl⟩ := List.mem_map.mp hsm
      exact Or.inr ⟨j, List.mem_range.mp hj, rfl⟩
  refine ⟨?_, ?_, ?_⟩
  · intro l hl hside
    rcases hmem l hl with ⟨j, hj, rfl⟩ | ⟨j, hj, rfl⟩
    · refine ⟨buyPrice_pos P s n j hj hs hhalf hbot,
        buyPrice_lt P s n j hj hs hhalf, j+1, by omega, by omega, ?_, ?_, rfl⟩
      · simp [buyLevelAt]
      · rfl
    · exact absurd hside (by simp [sellLevelAt])
  · intro l hl hside
    rcases hmem l hl with ⟨j, hj, rfl⟩ | ⟨j, hj, rfl⟩
    · exact absurd hside (by simp [buyLevelAt])
    · refine ⟨sellPrice_gt P s n j hj hs hhalf, j+1, by omega, by omega, ?_, ?_, rfl⟩
      · simp [sellLevelAt]
      · rfl
  · have hfb : List.filter (fun l => l.side == Side.buy)
        ((List.range n).map (buyLevelAt P s C n)) =
        (List.range n).map (buyLevelAt P s C n) := by
      apply List.filter_eq_self.mpr
      intro a ha
      obtain ⟨j, hj, rfl⟩ := List.mem_map.mp ha
      rfl
    have hfb2 : List.filter (fun l => l.side == Side.buy)
        ((List.range n).map (sellLevelAt P s C n)) = [] := by
      apply List.filter_eq_nil_iff.mpr
      intro a ha
      obtain ⟨j, hj, rfl⟩ := List.mem_map.mp ha
      simp [sellLevelAt]
    have hpermf : List.filter (fun l => l.side == Side.buy)
          (calculateGridLevels P s n C 6) |>.Perm
        ((List.range n).map (buyLevelAt P s C n)) := by
      rw [calculateGridLevels_eq]
      have := hperm.filter (fun l => l.side == Side.buy)
      rwa [List.filter_append, hfb, hfb2, List.append_nil] at this
    have hsum := (hpermf.map (fun l => l.price * ((C / (n:ℚ)) / l.price))).sum_eq
    rw [hsum]
    have hall : ∀ x ∈ ((List.range n).map (buyLevelAt P s C n)).map
        (fun l => l.price * ((C / (n:ℚ)) / l.price)), x = C / (n:ℚ) := by
      intro x hx
      obtain ⟨l, hl, rfl⟩ := List.mem_map.mp hx
      obtain ⟨j, hj, rfl⟩ := List.mem_map.mp hl
      have hpos := buyPrice_pos P s n j (List.mem_range.mp hj) hs hhalf hbot
      have hne : (buyLevelAt P s C n j).price ≠ 0 := ne_of_gt hpos
      rw [mul_comm, div_mul_cancel₀ _ hne]
    rw [List.sum_eq_card_nsmul _ _ hall]
    simp only [List.length_map, List.length_range]
    have hne : ((n:ℚ)) ≠ 0 := by
      have : (0:ℚ) < n := by exact_mod_cast hn
      exact ne_of_gt this
    rw [nsmul_eq_mul, mul_comm, div_mul_cancel₀ _ hne]

/-- Claim C5 (amended): for center price `P`, spacing `s > 0`, `n ≥ 1` levels
and capital `C`, provided one spacing step and the lowest raw buy price each
exceed half an ulp of the 6-decimal price grid (`P·(s/100) > 5·10⁻⁷` and
`P·(1 - (s/100)·n) > 5·10⁻⁷`), `calculateGridLevels(P, s, n, C)` returns
exactly `2n` levels — `n` buy levels strictly below `P` and `n` sell levels
strictly above `P`, each priced at the ROUNDED `roundTo(P·(1 ∓ (s/100)·i), 6)`
for some `i ∈ 1..n` with quantity `roundTo((C/n)/price, 9)` — sorted
ascending by price, and the buy-side capital allocation, measured with the
un-rounded quantity `(C/n)/price`, sums to exactly `C`. -/
theorem calculateGridLevels_spec (P s C : ℚ) (n : ℕ)
    (hn : 1 ≤ n) (hs : 0 < s)
    (hhalf : 1/2000000 < P * (s/100))
    (hbot : 1/2000000 < P * (1 - s/100 * n)) :
    (calculateGridLevels P s n C 6).length = 2 * n ∧
    ((calculateGridLevels P s n C 6).filter
      (fun l => l.side == Side.buy)).length = n ∧
    ((calculateGridLevels P s n C 6).filter
      (fun l => l.side == Side.sell)).length = n ∧
    List.Sorted priceLE (calculateGridLevels P s n C 6) ∧
    (∀ l ∈ calculateGridLevels P s n C 6, l.side = Side.buy →
      0 < l.price ∧ l.price < P ∧
      ∃ i : ℕ, 1 ≤ i ∧ i ≤ n ∧ l.index = -(i:ℤ) ∧
        l.price = roundTo (P * (1 - s/100 * (i:ℚ))) 6 ∧
        l.quantity = roundTo ((C / (n:ℚ)) / l.price) 9) ∧
    (∀ l ∈ calculateGridLevels P s n C 6, l.side = Side.sell →
      P < l.price ∧
      ∃ i : ℕ, 1 ≤ i ∧ i ≤ n ∧ l.index = (i:ℤ) ∧
        l.price = roundTo (P * (1 + s/100 * (i:ℚ))) 6 ∧
        l.quantity = roundTo ((C / (n:ℚ)) / l.price) 9) ∧
    (((calculateGridLevels P s n C 6).filter (fun l => l.side == Side.buy)).map
        (fun l => l.price * ((C / (n:ℚ)) / l.price))).sum = C := by
  obtain ⟨h1, h2, h3, h4⟩ := calculateGridLevels_counts_sorted P s C n
  obtain ⟨h5, h6, h7⟩ := calculateGridLevels_levels_sum P s C n hn hs hhalf hbot
  exact ⟨h1, h2, h3, h4, h5, h6, h7⟩

/-- Witness for C5 (amended): center 100, spacing 2%, 2 levels, capital 100 —
4 levels, 2 buys, 2 sells, sorted, unrounded buy allocation sums to 100. -/
theorem calculateGridLevels_spec_witness :
    (calculateGridLevels 100 2 2 100 6).length = 2 * 2 ∧
    ((calculateGridLevels 100 2 2 100 6).filter
      (fun l => l.side == Side.buy)).length = 2 ∧
    ((calculateGridLevels 100 2 2 100 6).filter
      (fun l => l.side == Side.sell)).length = 2 ∧
    List.Sorted priceLE (calculateGridLevels 100 2 2 100 6) ∧
    (((calculateGridLevels 100 2 2 100 6).filter (fun l => l.side == Side.buy)).map
        (fun l => l.price * ((100 / ((2:ℕ):ℚ)) / l.price))).sum = 100 := by
  have h := calculateGridLevels_spec 100 2 100 2 (by norm_num) (by norm_num)
    (by norm_num) (by norm_num)
  exact ⟨h.1, h.2.1, h.2.2.1, h.2.2.2.1, h.2.2.2.2.2.2⟩

end GridBot
